import Mathlib

/-!
Shallow embedding of `src/client/src/lib/hooks/useConnection.ts` from
segun/mcp-inspector: a client-side connection manager for an MCP session.

The hook's React state (`connectionStatus`, `serverCapabilities`, `mcpClient`,
`requestHistory`) is modelled as an explicit `HookState`; the browser/collaborator
environment (session storage, toasts, console, timers, the transport attempts and
the OAuth collaborator) is modelled as an explicit `World` threaded through every
operation.  Asynchronous outcomes of external calls (`mcpClient.request`,
`mcpClient.notification`, `client.connect`, `refreshAccessToken`,
`startOAuthFlow`) are supplied as oracle values, so each source function becomes
a pure state-transition function.
-/

namespace McpInspector

/-- Minimal JSON value model; `JSON.stringify` of the source is `Json.stringify`. -/
inductive Json where
  | null
  | bool (b : Bool)
  | str (s : String)
  | obj (fields : List (String × Json))
deriving Repr

/-- Escaping performed by `JSON.stringify` on one string-content character
(quotes and backslashes; the claims only exercise plain ASCII payloads). -/
def jsonEscapeChar (c : Char) : String :=
  if c = '"' then "\\\""
  else if c = '\\' then "\\\\"
  else String.singleton c

/-- Escaping performed by `JSON.stringify` on string contents. -/
def jsonEscape (s : String) : String :=
  String.join (s.toList.map jsonEscapeChar)

mutual

/-- `JSON.stringify` over the `Json` model. -/
def Json.stringify : Json → String
  | .null => "null"
  | .bool true => "true"
  | .bool false => "false"
  | .str s => "\"" ++ jsonEscape s ++ "\""
  | .obj fields => "\x7b" ++ stringifyFields fields ++ "\x7d"

/-- Comma-separated `"key":value` rendering of the fields of a JSON object. -/
def stringifyFields : List (String × Json) → String
  | [] => ""
  | [(k, v)] => "\"" ++ jsonEscape k ++ "\":" ++ Json.stringify v
  | (k, v) :: rest =>
      "\"" ++ jsonEscape k ++ "\":" ++ Json.stringify v ++ "," ++ stringifyFields rest

end

/-- Modelled from the spec: session-scoped key-value storage (the browser
`sessionStorage` collaborator, not part of src/).  Modelled as an association
list in which `setItem` replaces any previous binding for the key; this is
observationally equal (through `getItem`) to the browser's in-place update. -/
structure SessionStorage where
  items : List (String × String)
deriving Repr, DecidableEq

def SessionStorage.getItem (s : SessionStorage) (k : String) : Option String :=
  (s.items.find? (fun p => p.1 == k)).map Prod.snd

def SessionStorage.setItem (s : SessionStorage) (k v : String) : SessionStorage :=
  ⟨(k, v) :: s.items.filter (fun p => !(p.1 == k))⟩

def SessionStorage.removeItem (s : SessionStorage) (k : String) : SessionStorage :=
  ⟨s.items.filter (fun p => !(p.1 == k))⟩

/-- Modelled from the spec: the fixed storage key for the access token
(`SESSION_KEYS` lives in `src/client/src/lib/constants.ts`, which is not under
src/; the spec fixes three logical keys as plain strings). -/
def SESSION_KEYS.ACCESS_TOKEN : String := "mcp_access_token"

/-- Modelled from the spec: the fixed storage key for the refresh token. -/
def SESSION_KEYS.REFRESH_TOKEN : String := "mcp_refresh_token"

/-- Modelled from the spec: the fixed storage key for the remembered server URL. -/
def SESSION_KEYS.SERVER_URL : String := "mcp_server_url"

/-- JavaScript truthiness of a nullable string (`null` and `""` are falsy);
used by the source's `if (sessionStorage.getItem(...))` and
`if (tokens.refresh_token)` and `if (accessToken)` tests. -/
def truthy : Option String → Bool
  | none => false
  | some s => s != ""

/-- Server-declared capability set; opaque to this core, received at handshake. -/
structure ServerCapabilities where
  features : List String
deriving Repr, DecidableEq

/-- The capabilities the client declares (source lines 174–180:
`sampling: {}` and `roots: { listChanged: true }`). -/
structure ClientCapabilities where
  sampling : Bool
  rootsListChanged : Bool
deriving Repr, DecidableEq

/-- The MCP client object: identity, declared capabilities, and the handler
registrations performed by `connect` (recorded by schema name). -/
structure Client where
  name : String
  version : String
  capabilities : ClientCapabilities
  notificationHandlers : List String
  requestHandlers : List String
deriving Repr, DecidableEq

inductive ConnectionStatus where
  | disconnected
  | connected
  | error
deriving Repr, DecidableEq

/-- One entry of `requestHistory`: the serialized request and, optionally, the
serialized response or error object (absent for notifications). -/
structure HistoryEntry where
  request : String
  response : Option String
deriving Repr, DecidableEq

/-- The hook's React state. -/
structure HookState where
  connectionStatus : ConnectionStatus
  serverCapabilities : Option ServerCapabilities
  mcpClient : Option Client
  requestHistory : List HistoryEntry
deriving Repr, DecidableEq

/-- Oracle outcome of one `refreshAccessToken` call (the OAuth collaborator):
the token endpoint returns an access token and an optional refresh token,
or the exchange fails. -/
inductive RefreshOutcome where
  | success (access_token : String) (refresh_token : Option String)
  | failure (msg : String)
deriving Repr, DecidableEq

/-- Oracle outcome of one `startOAuthFlow` call: the authorization redirect URL,
or a failure computing it. -/
inductive OAuthFlowOutcome where
  | success (redirectUrl : String)
  | failure (msg : String)
deriving Repr, DecidableEq

/-- Errors the transport can signal during the handshake: an `SseError`
carrying an HTTP-like code, or any other error. -/
inductive ConnectError where
  | sseError (code : Nat) (message : String)
  | otherError (message : String)
deriving Repr, DecidableEq

/-- Oracle outcome of one `client.connect(transport)` handshake: success carries
the server capabilities reported by `getServerCapabilities()` (`undefined`
modelled as `none`). -/
inductive HandshakeOutcome where
  | success (caps : Option ServerCapabilities)
  | failure (error : ConnectError)
deriving Repr, DecidableEq

/-- One transport construction performed by `connect`: the backend URL and the
headers handed to `SSEClientTransport`. -/
structure TransportAttempt where
  url : String
  headers : List (String × String)
deriving Repr, DecidableEq

/-- The observable environment: session storage, the toast channel, the console
error log (count), the pending browser redirect, bookkeeping for timers, aborts
and network sends, the transport attempts made by `connect`, and the queued
oracle outcomes for the OAuth collaborator calls. -/
structure World where
  storage : SessionStorage := ⟨[]⟩
  toasts : List String := []
  consoleErrors : Nat := 0
  redirect : Option String := none
  refreshCalls : Nat := 0
  refreshes : List RefreshOutcome := []
  oauthFlows : List OAuthFlowOutcome := []
  attempts : List TransportAttempt := []
  timersCreated : Nat := 0
  armedTimers : Nat := 0
  aborts : List String := []
  networkSends : Nat := 0
deriving Repr, DecidableEq

/-- Source lines 62–70: append one history entry, serializing the request and
(when present) the response. -/
def pushHistory (st : HookState) (request : Json) (response : Option Json) : HookState :=
  { st with requestHistory := st.requestHistory ++
      [{ request := request.stringify, response := response.map Json.stringify }] }

/-- The serialized error object `{ error: errorMessage }` recorded by
`makeRequest` on failure. -/
def errorObj (msg : String) : Json := .obj [("error", .str msg)]

/-- The abort reason used when the request timer fires
(`abortController.abort("Request timed out")`, source line 83). -/
def TIMEOUT_REASON : String := "Request timed out"

/-- Oracle outcome of one `mcpClient.request` call: a schema-validated response,
a rejection with an error message (transport or schema failure), or the timeout
timer firing first. -/
inductive RequestOutcome where
  | success (response : Json)
  | failure (msg : String)
  | timeout
deriving Repr

/-- Source lines 72–108, `makeRequest`: with no client, throw immediately
(before the try block, so no timer, no send, no history, no toast).  Otherwise
arm the timeout timer, send, and on settlement push exactly one history entry —
the response on success, `{error: message}` on failure or timeout — clear the
timer in the `finally`, and on any failure of the inner block toast the message
and re-throw.  A timeout rejects with the abort reason `"Request timed out"`. -/
def makeRequest (st : HookState) (w : World) (request : Json)
    (outcome : RequestOutcome) : Except String Json × HookState × World :=
  match st.mcpClient with
  | none => (.error "MCP client not connected", st, w)
  | some _ =>
    let w := { w with timersCreated := w.timersCreated + 1,
                      armedTimers := w.armedTimers + 1,
                      networkSends := w.networkSends + 1 }
    match outcome with
    | .success response =>
      let st := pushHistory st request (some response)
      let w := { w with armedTimers := w.armedTimers - 1 }
      (.ok response, st, w)
    | .failure msg =>
      let st := pushHistory st request (some (errorObj msg))
      let w := { w with armedTimers := w.armedTimers - 1,
                        toasts := w.toasts ++ [msg] }
      (.error msg, st, w)
    | .timeout =>
      let w := { w with aborts := w.aborts ++ [TIMEOUT_REASON] }
      let st := pushHistory st request (some (errorObj TIMEOUT_REASON))
      let w := { w with armedTimers := w.armedTimers - 1,
                        toasts := w.toasts ++ [TIMEOUT_REASON] }
      (.error TIMEOUT_REASON, st, w)

/-- Oracle outcome of one `mcpClient.notification` call. -/
inductive NotificationOutcome where
  | success
  | failure (msg : String)
deriving Repr, DecidableEq

/-- Source lines 110–122, `sendNotification`: with no client, throw immediately.
Otherwise send; on success push one history entry with no response field; on
failure toast the message and re-throw — note that the catch does not push a
history entry. -/
def sendNotification (st : HookState) (w : World) (note : Json)
    (outcome : NotificationOutcome) : Except String Unit × HookState × World :=
  match st.mcpClient with
  | none => (.error "MCP client not connected", st, w)
  | some _ =>
    let w := { w with networkSends := w.networkSends + 1 }
    match outcome with
    | .success => (.ok (), pushHistory st note none, w)
    | .failure msg => (.error msg, st, { w with toasts := w.toasts ++ [msg] })

inductive TransportType where
  | stdio
  | sse
deriving Repr, DecidableEq

def TransportType.toParam : TransportType → String
  | .stdio => "stdio"
  | .sse => "sse"

/-- The hook's options (source lines 25–37).  Callbacks are modelled by their
presence flags, which is all `connect` branches on; `env` is the environment
record passed to the stdio transport. -/
structure UseConnectionOptions where
  transportType : TransportType
  command : String
  args : String
  sseUrl : String
  env : List (String × String)
  proxyServerUrl : String
  requestTimeout : Nat := 300000
  hasOnNotification : Bool := false
  hasOnStdErrNotification : Bool := false
  hasOnPendingRequest : Bool := false
  hasGetRoots : Bool := false
deriving Repr, DecidableEq

/-- One hex digit (uppercase), for percent-encoding. -/
def hexDigit (n : Nat) : Char :=
  if n < 10 then Char.ofNat (48 + n) else Char.ofNat (55 + n)

/-- Two-digit uppercase hex of a byte. -/
def hexByte (n : Nat) : String :=
  String.mk [hexDigit (n / 16 % 16), hexDigit (n % 16)]

/-- Modelled from the spec: the `application/x-www-form-urlencoded` escaping the
platform's `URLSearchParams` applies (the `URL` collaborator is not part of
src/): ASCII alphanumerics and `*-._` pass through, space becomes `+`, every
other character is percent-encoded (single-byte code points; all inputs the
claims exercise are ASCII). -/
def formEncodeChar (c : Char) : String :=
  if c.isAlphanum || c = '*' || c = '-' || c = '.' || c = '_' then String.singleton c
  else if c = ' ' then "+"
  else "%" ++ hexByte c.toNat

def formEncode (s : String) : String :=
  String.join (s.toList.map formEncodeChar)

/-- Render a query-parameter list the way `URLSearchParams.toString` does. -/
def queryString (params : List (String × String)) : String :=
  String.intercalate "&" (params.map (fun p => formEncode p.1 ++ "=" ++ formEncode p.2))

/-- `JSON.stringify(env)`: the environment record as a JSON object. -/
def envJson (env : List (String × String)) : Json :=
  .obj (env.map (fun p => (p.1, .str p.2)))

/-- Source lines 183–192: the backend connection URL — `proxyServerUrl` plus
`/sse`, with `transportType` always appended, then either
`command`/`args`/`env` (stdio) or `url` (sse). -/
def buildBackendUrl (opts : UseConnectionOptions) : String :=
  let params := [("transportType", opts.transportType.toParam)] ++
    (match opts.transportType with
     | .stdio => [("command", opts.command), ("args", opts.args),
                  ("env", (envJson opts.env).stringify)]
     | .sse => [("url", opts.sseUrl)])
  opts.proxyServerUrl ++ "/sse?" ++ queryString params

/-- Source lines 194–198: the headers attached to the transport — an
`Authorization: Bearer` header exactly when a (truthy) access token is stored. -/
def buildHeaders (w : World) : List (String × String) :=
  match w.storage.getItem SESSION_KEYS.ACCESS_TOKEN with
  | some tok => if tok != "" then [("Authorization", "Bearer " ++ tok)] else []
  | none => []

/-- Pop the next scripted `startOAuthFlow` outcome; an unscripted call is
modelled as a failure (theorems always script enough outcomes). -/
def popOAuthFlow (w : World) : OAuthFlowOutcome × World :=
  match w.oauthFlows with
  | [] => (.failure "unscripted startOAuthFlow call", w)
  | o :: rest => (o, { w with oauthFlows := rest })

/-- Pop the next scripted `refreshAccessToken` outcome, counting the call. -/
def popRefresh (w : World) : RefreshOutcome × World :=
  let w := { w with refreshCalls := w.refreshCalls + 1 }
  match w.refreshes with
  | [] => (.failure "unscripted refreshAccessToken call", w)
  | r :: rest => (r, { w with refreshes := rest })

/-- Source lines 124–130, `initiateOAuthFlow`: remove the stored access and
refresh tokens, remember the server URL, obtain the authorization redirect URL
and navigate to it; a failure computing the redirect URL propagates uncaught. -/
def initiateOAuthFlow (opts : UseConnectionOptions) (w : World) :
    Except String Unit × World :=
  let storage := ((w.storage.removeItem SESSION_KEYS.ACCESS_TOKEN).removeItem
      SESSION_KEYS.REFRESH_TOKEN).setItem SESSION_KEYS.SERVER_URL opts.sseUrl
  let w := { w with storage := storage }
  match popOAuthFlow w with
  | (.success url, w) => (.ok (), { w with redirect := some url })
  | (.failure msg, w) => (.error msg, w)

/-- Source lines 132–148, `handleTokenRefresh`: exchange the refresh token; on
success store the new access token, store the new refresh token only when the
response carries a truthy one, and return the access token.  On failure log,
fall back to `initiateOAuthFlow`, and re-throw (the original error, or the
OAuth-flow error if that throws first). -/
def handleTokenRefresh (opts : UseConnectionOptions) (w : World) :
    Except String String × World :=
  match popRefresh w with
  | (.success access_token refresh_token, w) =>
    let storage := w.storage.setItem SESSION_KEYS.ACCESS_TOKEN access_token
    let storage :=
      if truthy refresh_token then
        storage.setItem SESSION_KEYS.REFRESH_TOKEN (refresh_token.getD "")
      else storage
    (.ok access_token, { w with storage := storage })
  | (.failure msg, w) =>
    let w := { w with consoleErrors := w.consoleErrors + 1 }
    match initiateOAuthFlow opts w with
    | (.ok _, w) => (.error msg, w)
    | (.error m2, w) => (.error m2, w)

/-- The test `error instanceof SseError && error.code === 401` (source
lines 151 and 232). -/
def ConnectError.is401 : ConnectError → Bool
  | .sseError code _ => code == 401
  | .otherError _ => false

/-- Source lines 150–164, `handleAuthError`: returns whether the connection
should be retried.  Only an `SseError` with code 401 triggers anything: with a
truthy stored refresh token, try `handleTokenRefresh` (true on success, false —
after logging — on any throw); otherwise run `initiateOAuthFlow` (whose own
failure propagates) and return false.  Any other error: false, no side effects. -/
def handleAuthError (opts : UseConnectionOptions) (w : World) (error : ConnectError) :
    Except String Bool × World :=
  if error.is401 then
    if truthy (w.storage.getItem SESSION_KEYS.REFRESH_TOKEN) then
      match handleTokenRefresh opts w with
      | (.ok _, w) => (.ok true, w)
      | (.error _, w) => (.ok false, { w with consoleErrors := w.consoleErrors + 1 })
    else
      match initiateOAuthFlow opts w with
      | (.ok _, w) => (.ok false, w)
      | (.error m, w) => (.error m, w)
  else (.ok false, w)

/-- The client object built at the top of `connect` (source lines 168–181 and
209–221): fixed identity, declared capabilities, and the notification handlers
registered when the corresponding callbacks were supplied. -/
def mkClient (opts : UseConnectionOptions) : Client :=
  { name := "mcp-inspector"
    version := "0.0.1"
    capabilities := { sampling := true, rootsListChanged := true }
    notificationHandlers :=
      (if opts.hasOnNotification then ["ProgressNotificationSchema"] else []) ++
      (if opts.hasOnStdErrNotification then ["StdErrNotificationSchema"] else [])
    requestHandlers := [] }

/-- The request handlers registered after a successful handshake
(source lines 242–254). -/
def mkRequestHandlers (opts : UseConnectionOptions) : List String :=
  (if opts.hasOnPendingRequest then ["CreateMessageRequestSchema"] else []) ++
  (if opts.hasGetRoots then ["ListRootsRequestSchema"] else [])

/-- Record the transport construction of one `connect` attempt: the backend URL
and the headers captured from storage at that moment (source lines 183–207). -/
def connectSetup (opts : UseConnectionOptions) (w : World) : World :=
  { w with attempts := w.attempts ++
      [{ url := buildBackendUrl opts, headers := buildHeaders w }] }

/-- The body of `connect`'s outer `try` (source lines 167–257), one scripted
handshake outcome per attempt.  On handshake failure: log, delegate to
`handleAuthError`; retry recursively when it says so; return quietly (no state
change) when the error is an `SseError` 401; otherwise re-throw.  A throw out
of `handleAuthError` propagates.  On handshake success: publish the server
capabilities (`?? null`), register the request handlers, publish the client and
flip the status to connected.  An attempt with no scripted outcome is modelled
as an unscripted-handshake error. -/
def connectTry (opts : UseConnectionOptions) :
    HookState → World → List HandshakeOutcome → Nat →
    Except ConnectError Unit × HookState × World
  | st, w, [], _ =>
    (.error (.otherError "unscripted handshake"), st, connectSetup opts w)
  | st, w, outcome :: rest, retryCount =>
    let w := connectSetup opts w
    match outcome with
    | .success caps =>
      let st := { st with serverCapabilities := caps }
      let client := { mkClient opts with requestHandlers := mkRequestHandlers opts }
      let st := { st with mcpClient := some client, connectionStatus := .connected }
      (.ok (), st, w)
    | .failure error =>
      let w := { w with consoleErrors := w.consoleErrors + 1 }
      match handleAuthError opts w error with
      | (.error m, w) => (.error (.otherError m), st, w)
      | (.ok shouldRetry, w) =>
        if shouldRetry then
          connectTry opts st w rest (retryCount + 1)
        else if error.is401 then (.ok (), st, w)
        else (.error error, st, w)

/-- Source lines 166–262, `connect`: run the body; any escaping exception is
caught at the top level, logged, and turned into connection status `error`.
`connect` itself is a total function — it never propagates an exception. -/
def connect (opts : UseConnectionOptions) (st : HookState) (w : World)
    (handshakes : List HandshakeOutcome) (retryCount : Nat) : HookState × World :=
  match connectTry opts st w handshakes retryCount with
  | (.ok _, st, w) => (st, w)
  | (.error _, st, w) =>
    ({ st with connectionStatus := .error },
     { w with consoleErrors := w.consoleErrors + 1 })

/-- The synchronous prefix of `makeRequest`, up to the `await` of
`mcpClient.request` (source lines 76–89): the not-connected guard throws with
no effect at all; otherwise the timeout timer is armed, the send is issued,
and the call is in flight. -/
def makeRequestStart (st : HookState) (w : World) : Except String Unit × World :=
  match st.mcpClient with
  | none => (.error "MCP client not connected", w)
  | some _ =>
    (.ok (), { w with timersCreated := w.timersCreated + 1,
                      armedTimers := w.armedTimers + 1,
                      networkSends := w.networkSends + 1 })

/-- The continuation of an in-flight `makeRequest` once its awaited send
settles (source lines 90–107): push exactly one history entry — the response
on success, the `{error: message}` object on failure or timeout — clear the
timer in the `finally`, and on failure toast the message and re-throw. -/
def makeRequestSettle (st : HookState) (w : World) (request : Json)
    (outcome : RequestOutcome) : Except String Json × HookState × World :=
  match outcome with
  | .success response =>
    let st := pushHistory st request (some response)
    let w := { w with armedTimers := w.armedTimers - 1 }
    (.ok response, st, w)
  | .failure msg =>
    let st := pushHistory st request (some (errorObj msg))
    let w := { w with armedTimers := w.armedTimers - 1,
                      toasts := w.toasts ++ [msg] }
    (.error msg, st, w)
  | .timeout =>
    let w := { w with aborts := w.aborts ++ [TIMEOUT_REASON] }
    let st := pushHistory st request (some (errorObj TIMEOUT_REASON))
    let w := { w with armedTimers := w.armedTimers - 1,
                      toasts := w.toasts ++ [TIMEOUT_REASON] }
    (.error TIMEOUT_REASON, st, w)

/-- The synchronous prefix of `sendNotification`, up to the `await` of
`mcpClient.notification` (source lines 111–116): the not-connected guard,
then the send. -/
def sendNotificationStart (st : HookState) (w : World) : Except String Unit × World :=
  match st.mcpClient with
  | none => (.error "MCP client not connected", w)
  | some _ => (.ok (), { w with networkSends := w.networkSends + 1 })

/-- The continuation of an in-flight `sendNotification` once its awaited send
settles (source lines 117–121): push one response-less history entry on
success; on failure toast the message and re-throw, pushing nothing. -/
def sendNotificationSettle (st : HookState) (w : World) (note : Json)
    (outcome : NotificationOutcome) : Except String Unit × HookState × World :=
  match outcome with
  | .success => (.ok (), pushHistory st note none, w)
  | .failure msg => (.error msg, st, { w with toasts := w.toasts ++ [msg] })

/-- One scheduler step of the interleaved, event-loop execution of the gateway:
issuing a call runs its synchronous prefix; a response or error arriving runs
the matching call's continuation.  A trace corresponds to a real execution when
every settle step matches a distinct earlier issue step whose prefix returned
successfully; responses may settle in any order relative to issuance, and calls
rejected by the not-connected guard never settle. -/
inductive AsyncEvent where
  | issue (req : Json)
  | settle (req : Json) (outcome : RequestOutcome)
  | issueNote (note : Json)
  | settleNote (note : Json) (outcome : NotificationOutcome)

/-- Run an interleaved trace of gateway calls (call results discarded; only the
state effects matter). -/
def runInterleaved : HookState → World → List AsyncEvent → HookState × World
  | st, w, [] => (st, w)
  | st, w, .issue _ :: rest =>
    let r := makeRequestStart st w
    runInterleaved st r.2 rest
  | st, w, .settle req outcome :: rest =>
    let r := makeRequestSettle st w req outcome
    runInterleaved r.2.1 r.2.2 rest
  | st, w, .issueNote _ :: rest =>
    let r := sendNotificationStart st w
    runInterleaved st r.2 rest
  | st, w, .settleNote note outcome :: rest =>
    let r := sendNotificationSettle st w note outcome
    runInterleaved r.2.1 r.2.2 rest

/-- The history entry one scheduler step appends: a settling request always
appends one (response on success, the serialized error object otherwise), a
settling notification appends one only on success, and issue steps append
none. -/
def AsyncEvent.settleEntry : AsyncEvent → Option HistoryEntry
  | .issue _ => none
  | .issueNote _ => none
  | .settle req (.success r) =>
      some { request := req.stringify, response := some r.stringify }
  | .settle req (.failure m) =>
      some { request := req.stringify, response := some (errorObj m).stringify }
  | .settle req .timeout =>
      some { request := req.stringify, response := some (errorObj TIMEOUT_REASON).stringify }
  | .settleNote note .success =>
      some { request := note.stringify, response := none }
  | .settleNote _ (.failure _) => none

/-! Concrete fixtures used by witnesses and counterexamples. -/

/-- The world in which every environment component starts empty. -/
def emptyWorld : World := {}

/-- The initial hook state: disconnected, no capabilities, no client, empty history. -/
def initialState : HookState :=
  { connectionStatus := .disconnected
    serverCapabilities := none
    mcpClient := none
    requestHistory := [] }

/-- Options of the stdio scenario: command `echo`, args `"hello"`, empty environment. -/
def stdioOpts : UseConnectionOptions :=
  { transportType := .stdio
    command := "echo"
    args := "hello"
    sseUrl := "http://remote.example/sse"
    env := []
    proxyServerUrl := "http://localhost:3000" }

/-- A client as published by a successful `connect` with no callbacks supplied. -/
def sampleClient : Client :=
  { mkClient stdioOpts with requestHandlers := mkRequestHandlers stdioOpts }

/-- A hook state with an established session. -/
def connectedState : HookState :=
  { initialState with mcpClient := some sampleClient, connectionStatus := .connected }

/-- A world whose storage holds a refresh token and whose refresh oracle is
scripted to succeed with a fresh token pair. -/
def refreshWorld : World :=
  { storage := ⟨[(SESSION_KEYS.REFRESH_TOKEN, "old-refresh")]⟩
    refreshes := [.success "new-access" (some "new-refresh")] }

/-- A world with no stored tokens whose OAuth oracle is scripted to produce a
redirect URL. -/
def oauthWorld : World :=
  { oauthFlows := [.success "http://auth.example/authorize"] }

/-- The world after a single non-auth handshake failure of `connect` on
`stdioOpts` from the empty world: one transport attempt was recorded and the
failure was logged once by the inner catch. -/
def erroredWorld : World :=
  { attempts := [{ url := buildBackendUrl stdioOpts, headers := [] }]
    consoleErrors := 1 }

/-! Helper lemmas. -/

theorem find?_filter_none {α : Type} (p q : α → Bool) (l : List α)
    (himp : ∀ x, q x = true → p x = false) : (l.filter q).find? p = none := by
  induction l with
  | nil => rfl
  | cons hd tl ih =>
    by_cases hq : q hd = true
    · simp [List.filter_cons, hq, List.find?_cons, himp hd hq, ih]
    · simp only [Bool.not_eq_true] at hq
      simp [List.filter_cons, hq, ih]

theorem find?_filter_of_imp {α : Type} (p q : α → Bool) (l : List α)
    (himp : ∀ x, p x = true → q x = true) :
    (l.filter q).find? p = l.find? p := by
  induction l with
  | nil => rfl
  | cons hd tl ih =>
    by_cases hq : q hd = true
    · by_cases hp : p hd = true
      · simp [List.filter_cons, hq, List.find?_cons, hp]
      · simp only [Bool.not_eq_true] at hp
        simp [List.filter_cons, hq, List.find?_cons, hp, ih]
    · have hp : p hd = false := by
        cases h : p hd
        · rfl
        · exact absurd (himp hd h) hq
      simp only [Bool.not_eq_true] at hq
      simp [List.filter_cons, hq, List.find?_cons, hp, ih]

theorem SessionStorage.getItem_setItem_self (s : SessionStorage) (k v : String) :
    (s.setItem k v).getItem k = some v := by
  simp [SessionStorage.setItem, SessionStorage.getItem, List.find?_cons]

theorem SessionStorage.getItem_setItem_ne (s : SessionStorage) (k k' v : String)
    (h : k' ≠ k) : (s.setItem k v).getItem k' = s.getItem k' := by
  simp only [SessionStorage.setItem, SessionStorage.getItem, List.find?_cons]
  have hk : (k == k') = false := by
    simp only [beq_eq_false_iff_ne, ne_eq]
    exact fun he => h he.symm
  have h2 := find?_filter_of_imp (fun p : String × String => p.1 == k')
    (fun p : String × String => !(p.1 == k)) s.items (by
      intro x hx
      simp only [beq_iff_eq] at hx
      simp [hx, beq_eq_false_iff_ne, h])
  simp only [hk, cond_false, h2]

theorem SessionStorage.getItem_removeItem_self (s : SessionStorage) (k : String) :
    (s.removeItem k).getItem k = none := by
  simp only [SessionStorage.removeItem, SessionStorage.getItem]
  have h2 := find?_filter_none (fun p : String × String => p.1 == k)
    (fun p : String × String => !(p.1 == k)) s.items (by
      intro x hx
      simpa using hx)
  simp [h2]

theorem SessionStorage.getItem_removeItem_ne (s : SessionStorage) (k k' : String)
    (h : k' ≠ k) : (s.removeItem k).getItem k' = s.getItem k' := by
  simp only [SessionStorage.removeItem, SessionStorage.getItem]
  have h2 := find?_filter_of_imp (fun p : String × String => p.1 == k')
    (fun p : String × String => !(p.1 == k)) s.items (by
      intro x hx
      simp only [beq_iff_eq] at hx
      simp [hx, beq_eq_false_iff_ne, h])
  simp only [h2]

theorem makeRequest_eq_start_settle (st : HookState) (w : World) (req : Json)
    (o : RequestOutcome) (c : Client) (h : st.mcpClient = some c) :
    makeRequest st w req o = makeRequestSettle st (makeRequestStart st w).2 req o := by
  cases o <;> simp [makeRequest, makeRequestStart, makeRequestSettle, h]

theorem sendNotification_eq_start_settle (st : HookState) (w : World) (note : Json)
    (o : NotificationOutcome) (c : Client) (h : st.mcpClient = some c) :
    sendNotification st w note o =
      sendNotificationSettle st (sendNotificationStart st w).2 note o := by
  cases o <;> simp [sendNotification, sendNotificationStart, sendNotificationSettle, h]

theorem makeRequestSettle_history (st : HookState) (w : World) (req : Json)
    (o : RequestOutcome) :
    ((makeRequestSettle st w req o).2.1).requestHistory =
      st.requestHistory ++ (AsyncEvent.settle req o).settleEntry.toList := by
  cases o <;> simp [makeRequestSettle, pushHistory, AsyncEvent.settleEntry]

theorem sendNotificationSettle_history (st : HookState) (w : World) (note : Json)
    (o : NotificationOutcome) :
    ((sendNotificationSettle st w note o).2.1).requestHistory =
      st.requestHistory ++ (AsyncEvent.settleNote note o).settleEntry.toList := by
  cases o <;> simp [sendNotificationSettle, pushHistory, AsyncEvent.settleEntry]

theorem filterMap_cons_toList {α β : Type} (f : α → Option β) (a : α) (l : List α) :
    List.filterMap f (a :: l) = (f a).toList ++ List.filterMap f l := by
  cases h : f a <;> simp [List.filterMap_cons, h]

/-! Claim theorems. -/

/-- C1 (amended): along every interleaved execution of `makeRequest` and
`sendNotification` calls, each settling request appends exactly one history
entry at the moment it settles — pairing the serialized request with its
serialized response or error — and each settling notification appends exactly
one response-less entry on success and none on failure; issue steps (including
calls rejected as not-connected, which never settle) append none.  History is
therefore ordered by settlement, which can differ from issuance order when
responses arrive out of order. -/
theorem history_entry_per_settlement (events : List AsyncEvent) :
    ∀ (st : HookState) (w : World),
    (runInterleaved st w events).1.requestHistory =
      st.requestHistory ++ events.filterMap AsyncEvent.settleEntry := by
  induction events with
  | nil =>
    intro st w
    simp [runInterleaved]
  | cons ev rest ih =>
    intro st w
    cases ev with
    | issue req =>
      simp only [runInterleaved]
      rw [ih, filterMap_cons_toList]
      simp [AsyncEvent.settleEntry]
    | issueNote note =>
      simp only [runInterleaved]
      rw [ih, filterMap_cons_toList]
      simp [AsyncEvent.settleEntry]
    | settle req o =>
      simp only [runInterleaved]
      rw [ih, makeRequestSettle_history, filterMap_cons_toList, List.append_assoc]
    | settleNote note o =>
      simp only [runInterleaved]
      rw [ih, sendNotificationSettle_history, filterMap_cons_toList, List.append_assoc]

/-- C1 counterexample: three concrete interleaved executions refute the claim
as stated.  First, a notification issued and settling with an error leaves the
history empty — one completed call, zero entries, against the claimed
one-entry-per-call (the catch in source lines 118–121 never calls
`pushHistory`).  Second, two requests issued in the order A, B whose responses
arrive in the order B, A are recorded in settlement order — B's entry precedes
A's distinct entry — against the claimed issuance order regardless of response
arrival.  Third, a request rejected by the not-connected guard contributes no
entry either. -/
theorem history_claim_counterexample :
    (runInterleaved connectedState emptyWorld
        [.issueNote (.str "note"),
         .settleNote (.str "note") (.failure "boom")]).1.requestHistory = [] ∧
    (runInterleaved connectedState emptyWorld
        [.issue (.str "A"), .issue (.str "B"),
         .settle (.str "B") (.success (.str "rB")),
         .settle (.str "A") (.success (.str "rA"))]).1.requestHistory =
      [{ request := (Json.str "B").stringify, response := some (Json.str "rB").stringify },
       { request := (Json.str "A").stringify, response := some (Json.str "rA").stringify }] ∧
    ({ request := (Json.str "B").stringify,
       response := some (Json.str "rB").stringify } : HistoryEntry) ≠
      { request := (Json.str "A").stringify,
        response := some (Json.str "rA").stringify } ∧
    (runInterleaved initialState emptyWorld [.issue (.str "req")]).1.requestHistory = [] :=
  ⟨rfl, rfl, by decide, rfl⟩

/-- C4: a `makeRequest` whose timer fires first is aborted with the timeout
reason, rejects with that reason, and its single history entry pairs the
serialized request with the serialized error object — never a resolved
response. -/
theorem makeRequest_timeout_recorded_as_error (st : HookState) (w : World)
    (req : Json) (c : Client) (h : st.mcpClient = some c) :
    (makeRequest st w req .timeout).1 = .error TIMEOUT_REASON ∧
    (makeRequest st w req .timeout).2.2.aborts = w.aborts ++ [TIMEOUT_REASON] ∧
    (makeRequest st w req .timeout).2.1.requestHistory =
      st.requestHistory ++
        [{ request := req.stringify,
           response := some (errorObj TIMEOUT_REASON).stringify }] := by
  simp [makeRequest, pushHistory, h]

/-- Witness for `makeRequest_timeout_recorded_as_error` at a concrete request. -/
theorem makeRequest_timeout_recorded_as_error_witness :
    connectedState.mcpClient = some sampleClient ∧
    ((makeRequest connectedState emptyWorld (.str "slow") .timeout).1 =
        .error TIMEOUT_REASON ∧
     (makeRequest connectedState emptyWorld (.str "slow") .timeout).2.2.aborts =
        emptyWorld.aborts ++ [TIMEOUT_REASON] ∧
     (makeRequest connectedState emptyWorld (.str "slow") .timeout).2.1.requestHistory =
        connectedState.requestHistory ++
          [{ request := (Json.str "slow").stringify,
             response := some (errorObj TIMEOUT_REASON).stringify }]) :=
  ⟨rfl, makeRequest_timeout_recorded_as_error connectedState emptyWorld
    (.str "slow") sampleClient rfl⟩

/-- C5: a `makeRequest` issued with no published client rejects immediately with
the not-connected error and leaves both the hook state and the environment
untouched — no network send, no timer, no toast, no history entry. -/
theorem makeRequest_not_connected_no_effects (st : HookState) (w : World)
    (req : Json) (o : RequestOutcome) (h : st.mcpClient = none) :
    (makeRequest st w req o).1 = .error "MCP client not connected" ∧
    (makeRequest st w req o).2.1 = st ∧
    (makeRequest st w req o).2.2 = w := by
  simp [makeRequest, h]

/-- Witness for `makeRequest_not_connected_no_effects` at a concrete request. -/
theorem makeRequest_not_connected_no_effects_witness :
    initialState.mcpClient = none ∧
    ((makeRequest initialState emptyWorld (.str "ping") (.success (.str "pong"))).1 =
        .error "MCP client not connected" ∧
     (makeRequest initialState emptyWorld (.str "ping") (.success (.str "pong"))).2.1 =
        initialState ∧
     (makeRequest initialState emptyWorld (.str "ping") (.success (.str "pong"))).2.2 =
        emptyWorld) :=
  ⟨rfl, makeRequest_not_connected_no_effects initialState emptyWorld
    (.str "ping") (.success (.str "pong")) rfl⟩

/-- C6 (amended): a `makeRequest` that fails at the sending stage — a transport
or schema error, or a timeout — surfaces the error message on the toast channel
and re-throws it; the not-connected failure (see
`not_connected_failure_not_toasted`) is re-thrown without a toast. -/
theorem makeRequest_send_failures_toasted (st : HookState) (w : World)
    (req : Json) (msg : String) (c : Client) (h : st.mcpClient = some c) :
    ((makeRequest st w req (.failure msg)).1 = .error msg ∧
     (makeRequest st w req (.failure msg)).2.2.toasts = w.toasts ++ [msg]) ∧
    ((makeRequest st w req .timeout).1 = .error TIMEOUT_REASON ∧
     (makeRequest st w req .timeout).2.2.toasts = w.toasts ++ [TIMEOUT_REASON]) := by
  simp [makeRequest, h]

/-- Witness for `makeRequest_send_failures_toasted` at a concrete request. -/
theorem makeRequest_send_failures_toasted_witness :
    connectedState.mcpClient = some sampleClient ∧
    (((makeRequest connectedState emptyWorld (.str "ping") (.failure "boom")).1 =
        .error "boom" ∧
      (makeRequest connectedState emptyWorld (.str "ping") (.failure "boom")).2.2.toasts =
        emptyWorld.toasts ++ ["boom"]) ∧
     ((makeRequest connectedState emptyWorld (.str "ping") .timeout).1 =
        .error TIMEOUT_REASON ∧
      (makeRequest connectedState emptyWorld (.str "ping") .timeout).2.2.toasts =
        emptyWorld.toasts ++ [TIMEOUT_REASON])) :=
  ⟨rfl, makeRequest_send_failures_toasted connectedState emptyWorld
    (.str "ping") "boom" sampleClient rfl⟩

/-- C6 counterexample: a `makeRequest` with no established session fails with
the not-connected error, yet the toast channel stays empty — the source throws
at line 77, before the try whose catch calls `toast.error`. -/
theorem not_connected_failure_not_toasted :
    (makeRequest initialState emptyWorld (.str "ping") (.success (.str "pong"))).1 =
      .error "MCP client not connected" ∧
    (makeRequest initialState emptyWorld (.str "ping") (.success (.str "pong"))).2.2.toasts =
      [] :=
  ⟨rfl, rfl⟩

/-- C9: every `makeRequest` that reaches the sending stage creates exactly one
timer and, whatever the outcome — response, error, or timeout — leaves no timer
armed when the call settles. -/
theorem makeRequest_timer_always_cleared (st : HookState) (w : World)
    (req : Json) (o : RequestOutcome) (c : Client) (h : st.mcpClient = some c) :
    (makeRequest st w req o).2.2.timersCreated = w.timersCreated + 1 ∧
    (makeRequest st w req o).2.2.armedTimers = w.armedTimers := by
  cases o <;> simp [makeRequest, h]

/-- Witness for `makeRequest_timer_always_cleared` at a concrete request. -/
theorem makeRequest_timer_always_cleared_witness :
    connectedState.mcpClient = some sampleClient ∧
    ((makeRequest connectedState emptyWorld (.str "ping") .timeout).2.2.timersCreated =
        emptyWorld.timersCreated + 1 ∧
     (makeRequest connectedState emptyWorld (.str "ping") .timeout).2.2.armedTimers =
        emptyWorld.armedTimers) :=
  ⟨rfl, makeRequest_timer_always_cleared connectedState emptyWorld
    (.str "ping") .timeout sampleClient rfl⟩

/-- C10: on a successful token refresh the stored access token is always
overwritten with the returned one, while the stored refresh token is
overwritten only when the response carries a (truthy) new refresh token and is
left untouched otherwise. -/
theorem handleTokenRefresh_token_frame (opts : UseConnectionOptions) (w : World)
    (access : String) (rOpt : Option String) (rest : List RefreshOutcome)
    (h : w.refreshes = .success access rOpt :: rest) :
    (handleTokenRefresh opts w).1 = .ok access ∧
    (handleTokenRefresh opts w).2.storage.getItem SESSION_KEYS.ACCESS_TOKEN =
      some access ∧
    (∀ r : String, rOpt = some r → r ≠ "" →
      (handleTokenRefresh opts w).2.storage.getItem SESSION_KEYS.REFRESH_TOKEN =
        some r) ∧
    ((rOpt = none ∨ rOpt = some "") →
      (handleTokenRefresh opts w).2.storage.getItem SESSION_KEYS.REFRESH_TOKEN =
        w.storage.getItem SESSION_KEYS.REFRESH_TOKEN) := by
  have hAR : ∀ (s : SessionStorage) (v : String),
      (s.setItem SESSION_KEYS.REFRESH_TOKEN v).getItem SESSION_KEYS.ACCESS_TOKEN =
        s.getItem SESSION_KEYS.ACCESS_TOKEN :=
    fun s v => SessionStorage.getItem_setItem_ne s _ _ v (by decide)
  have hRA : ∀ (s : SessionStorage) (v : String),
      (s.setItem SESSION_KEYS.ACCESS_TOKEN v).getItem SESSION_KEYS.REFRESH_TOKEN =
        s.getItem SESSION_KEYS.REFRESH_TOKEN :=
    fun s v => SessionStorage.getItem_setItem_ne s _ _ v (by decide)
  refine ⟨?_, ?_, ?_, ?_⟩
  · simp [handleTokenRefresh, popRefresh, h]
  · by_cases ht : truthy rOpt = true
    · simp [handleTokenRefresh, popRefresh, h, ht, hAR,
        SessionStorage.getItem_setItem_self]
    · simp only [Bool.not_eq_true] at ht
      simp [handleTokenRefresh, popRefresh, h, ht,
        SessionStorage.getItem_setItem_self]
  · intro r hr hr'
    have ht : truthy rOpt = true := by simp [truthy, hr, hr']
    simp [handleTokenRefresh, popRefresh, h, ht, hr, truthy, hr',
      SessionStorage.getItem_setItem_self]
  · intro hcase
    have ht : truthy rOpt = false := by
      rcases hcase with hc | hc <;> simp [truthy, hc]
    simp [handleTokenRefresh, popRefresh, h, ht, hRA]

/-- Witness for `handleTokenRefresh_token_frame` on `refreshWorld`. -/
theorem handleTokenRefresh_token_frame_witness :
    refreshWorld.refreshes = .success "new-access" (some "new-refresh") :: [] ∧
    ((handleTokenRefresh stdioOpts refreshWorld).1 = .ok "new-access" ∧
     (handleTokenRefresh stdioOpts refreshWorld).2.storage.getItem
        SESSION_KEYS.ACCESS_TOKEN = some "new-access" ∧
     (∀ r : String, (some "new-refresh" : Option String) = some r → r ≠ "" →
       (handleTokenRefresh stdioOpts refreshWorld).2.storage.getItem
          SESSION_KEYS.REFRESH_TOKEN = some r) ∧
     (((some "new-refresh" : Option String) = none ∨
        (some "new-refresh" : Option String) = some "") →
       (handleTokenRefresh stdioOpts refreshWorld).2.storage.getItem
          SESSION_KEYS.REFRESH_TOKEN =
         refreshWorld.storage.getItem SESSION_KEYS.REFRESH_TOKEN)) :=
  ⟨rfl, handleTokenRefresh_token_frame stdioOpts refreshWorld
    "new-access" (some "new-refresh") [] rfl⟩

/-- C2: when the handshake fails with an `SseError` 401 while a (truthy)
refresh token is stored and the refresh succeeds with a nonempty access token,
`connect` calls the refresh exactly once, makes exactly one retry attempt, and
that retry's transport carries `Authorization: Bearer <new token>`; the retried
handshake succeeding leaves the connection `connected`. -/
theorem connect_401_refresh_once_retry_with_new_token
    (opts : UseConnectionOptions) (st : HookState) (w : World)
    (rt newtok m : String) (rOpt : Option String)
    (caps : Option ServerCapabilities) (rc : Nat)
    (hrt : w.storage.getItem SESSION_KEYS.REFRESH_TOKEN = some rt)
    (hrt' : rt ≠ "")
    (hrefresh : w.refreshes = [.success newtok rOpt])
    (htok : newtok ≠ "") :
    (connect opts st w [.failure (.sseError 401 m), .success caps] rc).2.refreshCalls =
      w.refreshCalls + 1 ∧
    (connect opts st w [.failure (.sseError 401 m), .success caps] rc).2.attempts =
      w.attempts ++
        [{ url := buildBackendUrl opts, headers := buildHeaders w },
         { url := buildBackendUrl opts,
           headers := [("Authorization", "Bearer " ++ newtok)] }] ∧
    (connect opts st w [.failure (.sseError 401 m), .success caps] rc).1.connectionStatus =
      .connected := by
  have hAR : ∀ (s : SessionStorage) (v : String),
      (s.setItem SESSION_KEYS.REFRESH_TOKEN v).getItem SESSION_KEYS.ACCESS_TOKEN =
        s.getItem SESSION_KEYS.ACCESS_TOKEN :=
    fun s v => SessionStorage.getItem_setItem_ne s _ _ v (by decide)
  have ht : truthy (w.storage.getItem SESSION_KEYS.REFRESH_TOKEN) = true := by
    simp [truthy, hrt, hrt']
  by_cases hro : truthy rOpt = true
  · simp [connect, connectTry, connectSetup, handleAuthError, handleTokenRefresh,
      popRefresh, hrefresh, ht, hro, ConnectError.is401, buildHeaders, hAR,
      SessionStorage.getItem_setItem_self, htok]
  · simp only [Bool.not_eq_true] at hro
    simp [connect, connectTry, connectSetup, handleAuthError, handleTokenRefresh,
      popRefresh, hrefresh, ht, hro, ConnectError.is401, buildHeaders,
      SessionStorage.getItem_setItem_self, htok]

/-- Witness for `connect_401_refresh_once_retry_with_new_token` on
`refreshWorld`. -/
theorem connect_401_refresh_once_retry_with_new_token_witness :
    refreshWorld.storage.getItem SESSION_KEYS.REFRESH_TOKEN = some "old-refresh" ∧
    ("old-refresh" ≠ "" ∧ "new-access" ≠ "") ∧
    refreshWorld.refreshes = [.success "new-access" (some "new-refresh")] ∧
    ((connect stdioOpts initialState refreshWorld
        [.failure (.sseError 401 "unauthorized"), .success none] 0).2.refreshCalls =
      refreshWorld.refreshCalls + 1 ∧
     (connect stdioOpts initialState refreshWorld
        [.failure (.sseError 401 "unauthorized"), .success none] 0).2.attempts =
      refreshWorld.attempts ++
        [{ url := buildBackendUrl stdioOpts, headers := buildHeaders refreshWorld },
         { url := buildBackendUrl stdioOpts,
           headers := [("Authorization", "Bearer " ++ "new-access")] }] ∧
     (connect stdioOpts initialState refreshWorld
        [.failure (.sseError 401 "unauthorized"), .success none] 0).1.connectionStatus =
      .connected) :=
  ⟨rfl, ⟨by decide, by decide⟩, rfl,
    connect_401_refresh_once_retry_with_new_token stdioOpts initialState refreshWorld
      "old-refresh" "new-access" "unauthorized" (some "new-refresh") none 0
      rfl (by decide) rfl (by decide)⟩

/-- C3: when the handshake fails with an `SseError` 401 and no (truthy) refresh
token is stored, `connect` clears the stored access and refresh tokens, stores
the target server URL, leaves a redirect pending, and returns quietly with the
hook state — in particular the connection status — unchanged. -/
theorem connect_401_no_refresh_redirects_quietly
    (opts : UseConnectionOptions) (st : HookState) (w : World)
    (m url : String) (rest : List OAuthFlowOutcome) (rc : Nat)
    (hrt : truthy (w.storage.getItem SESSION_KEYS.REFRESH_TOKEN) = false)
    (hoauth : w.oauthFlows = .success url :: rest) :
    (connect opts st w [.failure (.sseError 401 m)] rc).1 = st ∧
    (connect opts st w [.failure (.sseError 401 m)] rc).2.storage.getItem
      SESSION_KEYS.ACCESS_TOKEN = none ∧
    (connect opts st w [.failure (.sseError 401 m)] rc).2.storage.getItem
      SESSION_KEYS.REFRESH_TOKEN = none ∧
    (connect opts st w [.failure (.sseError 401 m)] rc).2.storage.getItem
      SESSION_KEYS.SERVER_URL = some opts.sseUrl ∧
    (connect opts st w [.failure (.sseError 401 m)] rc).2.redirect = some url := by
  have hUA : ∀ (s : SessionStorage) (v : String),
      (s.setItem SESSION_KEYS.SERVER_URL v).getItem SESSION_KEYS.ACCESS_TOKEN =
        s.getItem SESSION_KEYS.ACCESS_TOKEN :=
    fun s v => SessionStorage.getItem_setItem_ne s _ _ v (by decide)
  have hUR : ∀ (s : SessionStorage) (v : String),
      (s.setItem SESSION_KEYS.SERVER_URL v).getItem SESSION_KEYS.REFRESH_TOKEN =
        s.getItem SESSION_KEYS.REFRESH_TOKEN :=
    fun s v => SessionStorage.getItem_setItem_ne s _ _ v (by decide)
  have hRA : ∀ (s : SessionStorage),
      (s.removeItem SESSION_KEYS.REFRESH_TOKEN).getItem SESSION_KEYS.ACCESS_TOKEN =
        s.getItem SESSION_KEYS.ACCESS_TOKEN :=
    fun s => SessionStorage.getItem_removeItem_ne s _ _ (by decide)
  simp [connect, connectTry, connectSetup, handleAuthError, initiateOAuthFlow,
    popOAuthFlow, hoauth, hrt, ConnectError.is401, hUA, hUR, hRA,
    SessionStorage.getItem_removeItem_self,
    SessionStorage.getItem_setItem_self]

/-- Witness for `connect_401_no_refresh_redirects_quietly` on `oauthWorld`. -/
theorem connect_401_no_refresh_redirects_quietly_witness :
    truthy (oauthWorld.storage.getItem SESSION_KEYS.REFRESH_TOKEN) = false ∧
    oauthWorld.oauthFlows = .success "http://auth.example/authorize" :: [] ∧
    ((connect stdioOpts initialState oauthWorld
        [.failure (.sseError 401 "unauthorized")] 0).1 = initialState ∧
     (connect stdioOpts initialState oauthWorld
        [.failure (.sseError 401 "unauthorized")] 0).2.storage.getItem
        SESSION_KEYS.ACCESS_TOKEN = none ∧
     (connect stdioOpts initialState oauthWorld
        [.failure (.sseError 401 "unauthorized")] 0).2.storage.getItem
        SESSION_KEYS.REFRESH_TOKEN = none ∧
     (connect stdioOpts initialState oauthWorld
        [.failure (.sseError 401 "unauthorized")] 0).2.storage.getItem
        SESSION_KEYS.SERVER_URL = some stdioOpts.sseUrl ∧
     (connect stdioOpts initialState oauthWorld
        [.failure (.sseError 401 "unauthorized")] 0).2.redirect =
       some "http://auth.example/authorize") :=
  ⟨rfl, rfl, connect_401_no_refresh_redirects_quietly stdioOpts initialState
    oauthWorld "unauthorized" "http://auth.example/authorize" [] 0 rfl rfl⟩

/-- C7: `connect` is a total function of its inputs — it never propagates an
exception — and whenever the body escapes with an error not handled by the
auth-retry or quiet-redirect steps, the top-level catch logs it and sets the
connection status to `error`. -/
theorem connect_converts_failures_to_error_status
    (opts : UseConnectionOptions) (st st1 : HookState) (w w1 : World)
    (handshakes : List HandshakeOutcome) (rc : Nat) (e : ConnectError)
    (h : connectTry opts st w handshakes rc = (.error e, st1, w1)) :
    connect opts st w handshakes rc =
      ({ st1 with connectionStatus := .error },
       { w1 with consoleErrors := w1.consoleErrors + 1 }) := by
  simp [connect, h]

/-- Witness for `connect_converts_failures_to_error_status`: a single non-auth
handshake failure. -/
theorem connect_converts_failures_to_error_status_witness :
    connectTry stdioOpts initialState emptyWorld [.failure (.otherError "boom")] 0 =
      (.error (.otherError "boom"), initialState, erroredWorld) ∧
    connect stdioOpts initialState emptyWorld [.failure (.otherError "boom")] 0 =
      ({ initialState with connectionStatus := .error },
       { erroredWorld with consoleErrors := erroredWorld.consoleErrors + 1 }) := by
  have h : connectTry stdioOpts initialState emptyWorld
      [.failure (.otherError "boom")] 0 =
      (.error (.otherError "boom"), initialState, erroredWorld) := rfl
  exact ⟨h, connect_converts_failures_to_error_status stdioOpts initialState
    initialState emptyWorld erroredWorld [.failure (.otherError "boom")] 0
    (.otherError "boom") h⟩

/-- C8: the stdio scenario — command `echo`, args `"hello"`, empty environment —
yields a backend URL whose query string is exactly
`transportType=stdio&command=echo&args=hello&env=%7B%7D`, and a successful
handshake flips the status to `connected` and publishes exactly the server's
declared capability set (or none when the server declares none). -/
theorem connect_stdio_scenario (caps : ServerCapabilities) :
    buildBackendUrl stdioOpts =
      "http://localhost:3000/sse?transportType=stdio&command=echo&args=hello&env=%7B%7D" ∧
    (connect stdioOpts initialState emptyWorld
        [.success (some caps)] 0).1.connectionStatus = .connected ∧
    (connect stdioOpts initialState emptyWorld
        [.success (some caps)] 0).1.serverCapabilities = some caps ∧
    (connect stdioOpts initialState emptyWorld
        [.success none] 0).1.serverCapabilities = none := by
  refine ⟨rfl, ?_, ?_, ?_⟩ <;> simp [connect, connectTry, connectSetup]

end McpInspector
